import Mathlib

/-!
Shallow embedding of `src/server/convertToGif.py`, an MP4 → GIF converter.

The script's core is `convert_mp4_to_gif(input_path, output_path,
max_duration=10, target_fps=10, max_width=500)`:
probe the source frame rate (default 30), compute a frame-skip stride,
iterate decoded frames keeping every stride-th one, resize frames wider
than `max_width`, stop once an optional frame cap is reached, and write
the retained frames as a looping GIF.  A `__main__` block parses argv,
checks the input file exists, runs the conversion and exits 0 or 1.

Frames are modelled by their dimensions (pixel content is opaque to the
script's control flow), the video backend by a `VideoSource` that either
fails (an exception from `immeta`/`imiter`) or yields a frame-rate field
and a list of decoded frames, and the GIF writer by an atomic step that
either records the written file or fails with a message.
-/

namespace ConvertToGif

/-- A decoded frame, as the script observes it: `pil_frame.width` /
`pil_frame.height`. -/
structure Frame where
  width : Nat
  height : Nat
deriving Repr, DecidableEq

/-- The animated image written by `frames[0].save(...)`: the frame list, the
`duration` argument (milliseconds per frame), the `loop` argument (0 = loop
forever) and the `optimize` argument. -/
structure GifFile where
  frames : List Frame
  durationMs : Nat
  loop : Nat
  optimize : Bool
deriving Repr, DecidableEq

/-- Lines 43–46: if `pil_frame.width > max_width`, resize to
`(max_width, int(max_width * (height / width)))` (float truncation = floor
for nonnegative values, embedded as `Nat` division); otherwise the frame is
left unchanged. -/
def resizeFrame (maxWidth : Nat) (f : Frame) : Frame :=
  if maxWidth < f.width then
    { width := maxWidth, height := maxWidth * f.height / f.width }
  else f

/-- Line 29: `frame_skip = max(1, int(source_fps / target_fps))`.  The source
rate may be fractional, so it is a rational; `int` truncates toward zero,
which `Int.toNat ∘ Int.floor` reproduces for the nonnegative case (and for a
negative quotient both truncation and floor are absorbed by `max 1 ·`). -/
def frameSkip (sourceFps : ℚ) (targetFps : Nat) : Nat :=
  max 1 (⌊sourceFps / (targetFps : ℚ)⌋).toNat

/-- Line 35: `max_frames = None if max_duration >= 999 else
int(max_duration * target_fps)` (integer arguments, so the product is
exact). -/
def maxFramesOf (maxDuration targetFps : Nat) : Option Nat :=
  if 999 ≤ maxDuration then none else some (maxDuration * targetFps)

/-- Line 51 guard: `max_frames is not None and len(frames) >= max_frames`. -/
def capReached (cap : Option Nat) (n : Nat) : Bool :=
  match cap with
  | none => false
  | some m => m ≤ n

/-- Lines 37–54: the decoding loop.  Arguments mirror the loop state:
the remaining source frames, `frame_count`, and the accumulated `frames`
list.  Returns the final `frames` buffer together with the number of source
frames consumed from the remaining list (the `break` stops consumption). -/
def extractLoop (stride : Nat) (cap : Option Nat) (maxWidth : Nat) :
    List Frame → Nat → List Frame → List Frame × Nat
  | [], _, acc => (acc, 0)
  | f :: rest, count, acc =>
    if count % stride = 0 then
      let acc' := acc ++ [resizeFrame maxWidth f]
      if capReached cap acc'.length then (acc', 1)
      else
        let r := extractLoop stride cap maxWidth rest (count + 1) acc'
        (r.1, r.2 + 1)
    else
      let r := extractLoop stride cap maxWidth rest (count + 1) acc
      (r.1, r.2 + 1)

/-- The strided selection the loop implements: every frame whose zero-based
decode index is a multiple of `stride`, resized.  `count` is the index of
the first remaining frame. -/
def stridedFrames (stride maxWidth : Nat) : Nat → List Frame → List Frame
  | _, [] => []
  | count, f :: rest =>
    if count % stride = 0 then
      resizeFrame maxWidth f :: stridedFrames stride maxWidth (count + 1) rest
    else
      stridedFrames stride maxWidth (count + 1) rest

/-- The video backend as `convert_mp4_to_gif` sees it: either
`immeta`/`imiter` raises (with the exception's message), or the source
yields an optional `fps` metadata field (line 26 defaults it to 30) and the
decoded frame sequence. -/
inductive VideoSource where
  | unreadable (msg : String)
  | video (fps : Option ℚ) (frames : List Frame)

/-- The observable outcome of `convert_mp4_to_gif`: the returned boolean,
the lines printed to stdout and stderr, and the output file if one was
written. -/
structure ConvertResult where
  success : Bool
  stdoutLines : List String
  stderrLines : List String
  output : Option GifFile
deriving Repr, DecidableEq

/-- Line 73: `print(f"ERROR: {str(e)}", file=sys.stderr)`. -/
def errorLine (msg : String) : String := "ERROR: " ++ msg

/-- Line 69 success report. -/
def successLine (inp out : String) (n : Nat) : String :=
  "SUCCESS: Converted " ++ inp ++ " to " ++ out ++ " (" ++ toString n ++ " frames)"

/-- Line 78 usage text (printed to stdout). -/
def usageLine : String :=
  "Usage: python convertToGif.py <input.mp4> <output.gif> [max_duration] [fps] [width]"

/-- Lines 12–74: `convert_mp4_to_gif`.  `src` is the backend's behaviour for
`inputPath`; `saveError` is `none` when `save` succeeds and `some msg` when
it raises.  All exceptions land in the `except` block (lines 72–74), which
prints `ERROR: <message>` and returns `False`; a `targetFps` of zero raises
`ZeroDivisionError` at line 29 before any frame is read. -/
def convert (inp out : String) (src : VideoSource) (saveError : Option String)
    (maxDuration targetFps maxWidth : Nat) : ConvertResult :=
  match src with
  | .unreadable msg => ⟨false, [], [errorLine msg], none⟩
  | .video fps frames =>
    if targetFps = 0 then
      ⟨false, [], [errorLine "division by zero"], none⟩
    else
      let stride := frameSkip (fps.getD 30) targetFps
      let cap := maxFramesOf maxDuration targetFps
      let retained := (extractLoop stride cap maxWidth frames 0 []).1
      if retained.isEmpty then
        ⟨false, [], [errorLine "No frames extracted from video"], none⟩
      else
        match saveError with
        | some msg => ⟨false, [], [errorLine msg], none⟩
        | none =>
          ⟨true, [successLine inp out retained.length], [],
            some ⟨retained, 1000 / targetFps, 0, false⟩⟩

/-- The environment the `__main__` block runs in: the filesystem existence
predicate (`os.path.exists`), the video backend for the input path, the GIF
writer's behaviour, and `int(...)` parsing of the optional numeric
arguments (assumed to be valid numerals). -/
structure Env where
  fileExists : String → Bool
  source : VideoSource
  saveError : Option String
  parseNat : String → Nat

/-- The observable outcome of a command-line run. -/
structure MainResult where
  exitCode : Nat
  stdoutLines : List String
  stderrLines : List String
  output : Option GifFile
deriving Repr, DecidableEq

/-- Lines 83–85: `int(sys.argv[i]) if len(sys.argv) > i else dflt`, with
`argv` holding the positional arguments (i.e. `sys.argv[1:]`). -/
def argNat (env : Env) (argv : List String) (i dflt : Nat) : Nat :=
  match argv.get? i with
  | some s => env.parseNat s
  | none => dflt

/-- Lines 76–92: the `__main__` block, with `argv = sys.argv[1:]`.
Fewer than two positional arguments (`len(sys.argv) < 3`, i.e. the list
does not start with two entries) print usage to stdout and exit 1; a
missing input file prints to stderr and exits 1 before any conversion;
otherwise the conversion runs and the exit code reflects its boolean. -/
def mainRun (env : Env) (argv : List String) : MainResult :=
  match argv with
  | inp :: out :: _ =>
    let maxDuration := argNat env argv 2 10
    let fps := argNat env argv 3 10
    let width := argNat env argv 4 500
    if env.fileExists inp then
      let r := convert inp out env.source env.saveError maxDuration fps width
      ⟨if r.success then 0 else 1, r.stdoutLines, r.stderrLines, r.output⟩
    else
      ⟨1, [], ["ERROR: Input file not found: " ++ inp], none⟩
  | _ => ⟨1, [usageLine], [], none⟩

/-! ### Loop lemmas -/

theorem capReached_none (n : Nat) : capReached none n = false := rfl

theorem capReached_some (m n : Nat) : capReached (some m) n = (m ≤ n : Bool) := by
  simp [capReached]

/-- Unfolding equation for the loop at a kept index. -/
theorem extractLoop_cons_keep (s : Nat) (cap : Option Nat) (w : Nat)
    (f : Frame) (rest : List Frame) (count : Nat) (acc : List Frame)
    (h : count % s = 0) :
    extractLoop s cap w (f :: rest) count acc
      = if capReached cap (acc.length + 1) then (acc ++ [resizeFrame w f], 1)
        else ((extractLoop s cap w rest (count + 1) (acc ++ [resizeFrame w f])).1,
          (extractLoop s cap w rest (count + 1) (acc ++ [resizeFrame w f])).2 + 1) := by
  simp [extractLoop, h]

/-- Unfolding equation for the loop at a skipped index. -/
theorem extractLoop_cons_skip (s : Nat) (cap : Option Nat) (w : Nat)
    (f : Frame) (rest : List Frame) (count : Nat) (acc : List Frame)
    (h : ¬ count % s = 0) :
    extractLoop s cap w (f :: rest) count acc
      = ((extractLoop s cap w rest (count + 1) acc).1,
          (extractLoop s cap w rest (count + 1) acc).2 + 1) := by
  simp [extractLoop, h]

/-- Without a frame cap, the loop keeps exactly the strided frames and
consumes the entire source. -/
theorem extractLoop_none (s w : Nat) (frames : List Frame) :
    ∀ (count : Nat) (acc : List Frame),
      extractLoop s none w frames count acc
        = (acc ++ stridedFrames s w count frames, frames.length) := by
  induction frames with
  | nil => intro count acc; simp [extractLoop, stridedFrames]
  | cons f rest ih =>
    intro count acc
    by_cases h : count % s = 0
    · rw [extractLoop_cons_keep s none w f rest count acc h]
      simp [capReached_none, stridedFrames, h, ih]
    · rw [extractLoop_cons_skip s none w f rest count acc h]
      simp [stridedFrames, h, ih]

/-- With a cap `m` not yet reached by the accumulator, the loop's buffer is
the first `m` elements of accumulator-plus-strided-frames. -/
theorem extractLoop_some_fst (s w m : Nat) (frames : List Frame) :
    ∀ (count : Nat) (acc : List Frame), acc.length < m →
      (extractLoop s (some m) w frames count acc).1
        = (acc ++ stridedFrames s w count frames).take m := by
  induction frames with
  | nil =>
    intro count acc hacc
    simp [extractLoop, stridedFrames, List.take_of_length_le (Nat.le_of_lt hacc)]
  | cons f rest ih =>
    intro count acc hacc
    by_cases h : count % s = 0
    · rw [extractLoop_cons_keep s (some m) w f rest count acc h]
      by_cases hm : m ≤ acc.length + 1
      · have hb : capReached (some m) (acc.length + 1) = true := by
          simp [capReached, hm]
        have hlen : (acc ++ [resizeFrame w f]).length = m := by
          simp only [List.length_append, List.length_singleton]; omega
        rw [hb, if_pos rfl]
        show acc ++ [resizeFrame w f] = _
        rw [show acc ++ stridedFrames s w count (f :: rest)
              = (acc ++ [resizeFrame w f]) ++ stridedFrames s w (count + 1) rest by
            simp [stridedFrames, h]]
        rw [List.take_left' hlen]
      · have hb : capReached (some m) (acc.length + 1) = false := by
          simp [capReached, hm]
        have hlt : (acc ++ [resizeFrame w f]).length < m := by
          simp only [List.length_append, List.length_singleton]; omega
        rw [hb, if_neg (by simp)]
        show (extractLoop s (some m) w rest (count + 1) (acc ++ [resizeFrame w f])).1 = _
        rw [ih (count + 1) (acc ++ [resizeFrame w f]) hlt]
        simp [stridedFrames, h]
    · rw [extractLoop_cons_skip s (some m) w f rest count acc h]
      show (extractLoop s (some m) w rest (count + 1) acc).1 = _
      rw [ih (count + 1) acc hacc]
      simp [stridedFrames, h]

/-- The buffer never exceeds the cap. -/
theorem extractLoop_length_le (s w m : Nat) (frames : List Frame)
    (count : Nat) (acc : List Frame) (hacc : acc.length < m) :
    (extractLoop s (some m) w frames count acc).1.length ≤ m := by
  rw [extractLoop_some_fst s w m frames count acc hacc]
  exact List.length_take_le m _

/-- Once the buffer has reached the cap, frames appended to the source are
never consumed: the loop's whole result (buffer and consumption count) is
unchanged. -/
theorem extractLoop_stops_early (s w m : Nat) (frames : List Frame) :
    ∀ (count : Nat) (acc : List Frame) (extra : List Frame), acc.length < m →
      m ≤ (extractLoop s (some m) w frames count acc).1.length →
      extractLoop s (some m) w (frames ++ extra) count acc
        = extractLoop s (some m) w frames count acc := by
  induction frames with
  | nil =>
    intro count acc extra hacc hreach
    simp only [extractLoop] at hreach
    omega
  | cons f rest ih =>
    intro count acc extra hacc hreach
    by_cases h : count % s = 0
    · rw [List.cons_append, extractLoop_cons_keep s (some m) w f (rest ++ extra) count acc h,
        extractLoop_cons_keep s (some m) w f rest count acc h]
      rw [extractLoop_cons_keep s (some m) w f rest count acc h] at hreach
      by_cases hm : m ≤ acc.length + 1
      · have hb : capReached (some m) (acc.length + 1) = true := by
          simp [capReached, hm]
        rw [hb]
        simp
      · have hb : capReached (some m) (acc.length + 1) = false := by
          simp [capReached, hm]
        have hlt : (acc ++ [resizeFrame w f]).length < m := by
          simp only [List.length_append, List.length_singleton]; omega
        rw [hb, if_neg (by simp)] at hreach
        rw [hb, if_neg (by simp), if_neg (by simp),
          ih (count + 1) (acc ++ [resizeFrame w f]) extra hlt hreach]
    · rw [List.cons_append, extractLoop_cons_skip s (some m) w f (rest ++ extra) count acc h,
        extractLoop_cons_skip s (some m) w f rest count acc h]
      rw [extractLoop_cons_skip s (some m) w f rest count acc h] at hreach
      rw [ih (count + 1) acc extra hacc hreach]

/-- Every frame in the loop's buffer came from the accumulator or is a
resized source frame. -/
theorem extractLoop_mem (s w : Nat) (cap : Option Nat) (frames : List Frame) :
    ∀ (count : Nat) (acc : List Frame) (g : Frame),
      g ∈ (extractLoop s cap w frames count acc).1 →
      g ∈ acc ∨ ∃ f ∈ frames, g = resizeFrame w f := by
  induction frames with
  | nil => intro count acc g hg; exact Or.inl hg
  | cons f rest ih =>
    intro count acc g hg
    by_cases h : count % s = 0
    · rw [extractLoop_cons_keep s cap w f rest count acc h] at hg
      by_cases hc : capReached cap (acc.length + 1) = true
      · rw [hc, if_pos rfl] at hg
        rcases List.mem_append.1 hg with hl | hr
        · exact Or.inl hl
        · exact Or.inr ⟨f, List.mem_cons_self f rest, (List.mem_singleton.1 hr)⟩
      · rw [if_neg hc] at hg
        rcases ih (count + 1) (acc ++ [resizeFrame w f]) g hg with hl | ⟨f', hf', hg'⟩
        · rcases List.mem_append.1 hl with hll | hlr
          · exact Or.inl hll
          · exact Or.inr ⟨f, List.mem_cons_self f rest, (List.mem_singleton.1 hlr)⟩
        · exact Or.inr ⟨f', List.mem_cons_of_mem f hf', hg'⟩
    · rw [extractLoop_cons_skip s cap w f rest count acc h] at hg
      rcases ih (count + 1) acc g hg with hl | ⟨f', hf', hg'⟩
      · exact Or.inl hl
      · exact Or.inr ⟨f', List.mem_cons_of_mem f hf', hg'⟩

/-- The buffer always extends the accumulator. -/
theorem extractLoop_acc_append (s w : Nat) (cap : Option Nat) (frames : List Frame) :
    ∀ (count : Nat) (acc : List Frame),
      ∃ t, (extractLoop s cap w frames count acc).1 = acc ++ t := by
  induction frames with
  | nil => intro count acc; exact ⟨[], by simp [extractLoop]⟩
  | cons f rest ih =>
    intro count acc
    by_cases h : count % s = 0
    · by_cases hc : capReached cap (acc.length + 1) = true
      · refine ⟨[resizeFrame w f], ?_⟩
        rw [extractLoop_cons_keep s cap w f rest count acc h, hc, if_pos rfl]
      · rcases ih (count + 1) (acc ++ [resizeFrame w f]) with ⟨t, ht⟩
        refine ⟨resizeFrame w f :: t, ?_⟩
        rw [extractLoop_cons_keep s cap w f rest count acc h, if_neg hc]
        show (extractLoop s cap w rest (count + 1) (acc ++ [resizeFrame w f])).1 = _
        rw [ht]
        simp
    · rcases ih (count + 1) acc with ⟨t, ht⟩
      refine ⟨t, ?_⟩
      rw [extractLoop_cons_skip s cap w f rest count acc h]
      exact ht

/-- Starting from an empty buffer, a non-empty source always yields a
buffer starting with the resized first frame (index 0 passes the stride
test for every stride). -/
theorem extractLoop_head (s w : Nat) (cap : Option Nat) (f : Frame)
    (rest : List Frame) :
    (extractLoop s cap w (f :: rest) 0 []).1.head? = some (resizeFrame w f) := by
  have h0 : 0 % s = 0 := Nat.zero_mod s
  rw [extractLoop_cons_keep s cap w f rest 0 [] h0]
  by_cases hc : capReached cap (List.length ([] : List Frame) + 1) = true
  · rw [hc, if_pos rfl]
    rfl
  · rw [if_neg hc]
    rcases extractLoop_acc_append s w cap rest 1 ([] ++ [resizeFrame w f]) with ⟨t, ht⟩
    show (extractLoop s cap w rest (0 + 1) ([] ++ [resizeFrame w f])).1.head? = _
    rw [ht]
    simp

/-- The buffer is empty exactly when the source yielded no frames. -/
theorem extractLoop_empty_iff (s w : Nat) (cap : Option Nat)
    (frames : List Frame) :
    (extractLoop s cap w frames 0 []).1 = [] ↔ frames = [] := by
  cases frames with
  | nil => simp [extractLoop]
  | cons f rest =>
    constructor
    · intro h
      have := extractLoop_head s w cap f rest
      rw [h] at this
      simp at this
    · intro h; cases h

/-- The strided selection is the filter of index-enumerated frames by
`index % stride = 0`, mapped through the resize step. -/
theorem stridedFrames_eq_filter (s w : Nat) (frames : List Frame) :
    ∀ count : Nat,
      stridedFrames s w count frames
        = ((frames.enumFrom count).filter (fun p => p.1 % s = 0)).map
            (fun p => resizeFrame w p.2) := by
  induction frames with
  | nil => intro count; simp [stridedFrames, List.enumFrom]
  | cons f rest ih =>
    intro count
    by_cases h : count % s = 0
    · simp [stridedFrames, List.enumFrom, h, ih, List.filter_cons]
    · simp [stridedFrames, List.enumFrom, h, ih, List.filter_cons]

/-! ### Evaluation helpers and convert-level lemmas -/

theorem frameSkip_thirty_ten : frameSkip 30 10 = 3 := by
  unfold frameSkip
  norm_num
  rfl

theorem frameSkip_thirty_three : frameSkip 30 3 = 10 := by
  unfold frameSkip
  norm_num
  rfl

/-- The conversion returns `True` exactly when it wrote an output file. -/
theorem convert_success_iff_output (inp out : String) (src : VideoSource)
    (se : Option String) (d t w : Nat) :
    (convert inp out src se d t w).success = true
      ↔ ∃ g, (convert inp out src se d t w).output = some g := by
  cases src with
  | unreadable msg => simp [convert]
  | video fps frames =>
    by_cases ht : t = 0
    · simp [convert, ht]
    · simp only [convert, ht, if_false]
      by_cases he :
          ((extractLoop (frameSkip (fps.getD 30) t) (maxFramesOf d t) w frames 0 []).1).isEmpty
      · simp [he]
      · cases se with
        | none => simp [he]
        | some msg => simp [he]

/-! ### Claims -/

/-- C1 (amended): the code disables the frame cap for every
`maxDurationSeconds ≥ 999`, not only for the sentinel value 999 itself; for
positive `maxDurationSeconds < 999` the cap is
`maxFrames = maxDurationSeconds * targetFps` (an exact integer product, so
equal to its floor), and whenever no cap is applied every strided frame of
the entire source is kept. -/
theorem maxFrames_cap_spec (maxDuration targetFps : Nat) :
    (999 ≤ maxDuration → maxFramesOf maxDuration targetFps = none)
    ∧ (maxDuration < 999 →
        maxFramesOf maxDuration targetFps = some (maxDuration * targetFps))
    ∧ (∀ (s w : Nat) (frames : List Frame), 999 ≤ maxDuration →
        (extractLoop s (maxFramesOf maxDuration targetFps) w frames 0 []).1
          = stridedFrames s w 0 frames) := by
  refine ⟨fun h => by simp [maxFramesOf, h], fun h => ?_, fun s w frames h => ?_⟩
  · have : ¬ 999 ≤ maxDuration := by omega
    simp [maxFramesOf, this]
  · have hcap : maxFramesOf maxDuration targetFps = none := by simp [maxFramesOf, h]
    rw [hcap, extractLoop_none]
    simp

/-- C1 witness: at `maxDuration = 1000` no cap is applied; at
`maxDuration = 5, targetFps = 10` the cap is 50. -/
theorem maxFrames_cap_spec_witness :
    maxFramesOf 1000 10 = none ∧ maxFramesOf 5 10 = some (5 * 10) :=
  ⟨(maxFrames_cap_spec 1000 10).1 (by decide),
   (maxFrames_cap_spec 5 10).2.1 (by decide)⟩

/-- C1 counterexample: the claim states that for the positive non-sentinel
duration 1000 the cap `floor(1000 * 10)` is applied; the code applies no
cap there (any duration ≥ 999 is treated as the sentinel). -/
theorem maxFrames_cap_counterexample :
    maxFramesOf 1000 10 = none ∧ maxFramesOf 1000 10 ≠ some (1000 * 10) := by
  decide

/-- C2 (amended): a frame wider than `maxWidth` is scaled to width
`maxWidth` and height `floor(maxWidth * originalHeight / originalWidth)`
(the code truncates the float product, not rounds); narrower-or-equal
frames are unchanged; every frame the loop retains has width at most
`maxWidth`. -/
theorem resize_spec (maxWidth : Nat) (f : Frame) :
    (maxWidth < f.width →
      resizeFrame maxWidth f = ⟨maxWidth, maxWidth * f.height / f.width⟩)
    ∧ (f.width ≤ maxWidth → resizeFrame maxWidth f = f)
    ∧ (resizeFrame maxWidth f).width ≤ max maxWidth f.width
    ∧ (∀ (s : Nat) (cap : Option Nat) (frames : List Frame) (count : Nat)
        (g : Frame), g ∈ (extractLoop s cap maxWidth frames count []).1 →
          g.width ≤ maxWidth) := by
  refine ⟨fun h => by simp [resizeFrame, h], fun h => ?_, ?_, ?_⟩
  · have : ¬ maxWidth < f.width := by omega
    simp [resizeFrame, this]
  · by_cases h : maxWidth < f.width
    · simp [resizeFrame, h]
    · simp only [resizeFrame, h, if_false]
      omega
  · intro s cap frames count g hg
    rcases extractLoop_mem s maxWidth cap frames count [] g hg with h | ⟨f', _, hg'⟩
    · cases h
    · subst hg'
      by_cases h : maxWidth < f'.width
      · simp [resizeFrame, h]
      · simp only [resizeFrame, h, if_false]
        omega

/-- C2 witness: a 640×360 frame resized under `maxWidth = 500` becomes
500×281 (floor of 281.25), and a 320×200 frame is unchanged. -/
theorem resize_spec_witness :
    resizeFrame 500 ⟨640, 360⟩ = ⟨500, 281⟩ ∧ resizeFrame 500 ⟨320, 200⟩ = ⟨320, 200⟩ := by
  constructor
  · rw [(resize_spec 500 ⟨640, 360⟩).1 (by decide)]
    decide
  · exact (resize_spec 500 ⟨320, 200⟩).2.1 (by decide)

/-- C2 counterexample: the claim requires the resized height to be
`round(maxWidth * h / w)`; for a 512×511 frame with `maxWidth = 256` the
exact scaled height is 255.5, the code floors it to 255, while rounding
gives 256. -/
theorem resize_round_counterexample :
    (resizeFrame 256 ⟨512, 511⟩).height = 255
    ∧ round ((256 * (511 : ℚ)) / 512) = 256
    ∧ ((resizeFrame 256 ⟨512, 511⟩).height : ℤ) ≠ round ((256 * (511 : ℚ)) / 512) := by
  have h : round ((256 * (511 : ℚ)) / 512) = 256 := by
    rw [round_eq]
    norm_num
  refine ⟨by decide, h, ?_⟩
  rw [h]
  decide

/-- C4: the stride is `max(1, floor(sourceFps / targetFps))` with the
source rate defaulting to 30 when the metadata lacks it; without a cap the
loop keeps exactly the frames whose zero-based decode index is a multiple
of the stride; a 30 fps source at `targetFps = 10` gives stride 3 and kept
indices 0, 3, 6, 9, … -/
theorem stride_selection (sourceFps : ℚ) (targetFps : Nat) :
    frameSkip sourceFps targetFps = max 1 (⌊sourceFps / (targetFps : ℚ)⌋).toNat
    ∧ (∀ (inp out : String) (fs : List Frame) (se : Option String) (d t w : Nat),
        convert inp out (VideoSource.video none fs) se d t w
          = convert inp out (VideoSource.video (some 30) fs) se d t w)
    ∧ frameSkip 30 10 = 3
    ∧ (∀ (s w : Nat) (frames : List Frame),
        (extractLoop s none w frames 0 []).1
          = ((frames.enumFrom 0).filter (fun p => p.1 % s = 0)).map
              (fun p => resizeFrame w p.2))
    ∧ (extractLoop 3 none 500
          [⟨1, 1⟩, ⟨2, 1⟩, ⟨3, 1⟩, ⟨4, 1⟩, ⟨5, 1⟩, ⟨6, 1⟩,
           ⟨7, 1⟩, ⟨8, 1⟩, ⟨9, 1⟩, ⟨10, 1⟩, ⟨11, 1⟩, ⟨12, 1⟩] 0 []).1
        = [⟨1, 1⟩, ⟨4, 1⟩, ⟨7, 1⟩, ⟨10, 1⟩] := by
  refine ⟨rfl, fun inp out fs se d t w => rfl, frameSkip_thirty_ten,
    fun s w frames => ?_, by decide⟩
  rw [extractLoop_none]
  simp [stridedFrames_eq_filter]

/-- A fully successful concrete run: one 10×10 frame at 30 fps source,
defaults `maxDuration = 10`, `targetFps = 10`, `maxWidth = 500`. -/
theorem convert_example_success :
    convert "in.mp4" "out.gif" (VideoSource.video (some 30) [⟨10, 10⟩]) none 10 10 500
      = ⟨true, [successLine "in.mp4" "out.gif" 1], [],
          some ⟨[⟨10, 10⟩], 100, 0, false⟩⟩ := by
  simp only [convert, Option.getD, frameSkip_thirty_ten, maxFramesOf]
  norm_num [extractLoop, resizeFrame, capReached]

/-- C3 (amended): every written animated image has per-frame display
duration `floor(1000 / targetFps)` milliseconds (the code truncates
`1000 / target_fps` with `int`), loops forever (`loop = 0`), and skips the
optimization pass (`optimize = False`). -/
theorem gif_write_parameters (inp out : String) (src : VideoSource)
    (se : Option String) (d t w : Nat) (g : GifFile) :
    (convert inp out src se d t w).output = some g →
    (convert inp out src se d t w).success = true
    ∧ g.durationMs = 1000 / t ∧ g.loop = 0 ∧ g.optimize = false := by
  intro hg
  cases src with
  | unreadable msg => simp [convert] at hg
  | video fps frames =>
    by_cases ht : t = 0
    · simp [convert, ht] at hg
    · simp only [convert, ht, if_false] at hg ⊢
      by_cases he :
          ((extractLoop (frameSkip (fps.getD 30) t) (maxFramesOf d t) w frames 0 []).1).isEmpty
      · simp [he] at hg
      · cases se with
        | some msg => simp [he] at hg
        | none =>
          simp only [he, Bool.false_eq_true, if_false, Option.some.injEq] at hg
          subst hg
          simp [he]

/-- C3 witness: the concrete successful run at `targetFps = 10` writes a
GIF with 100 ms per frame, `loop = 0` and `optimize = False`. -/
theorem gif_write_parameters_witness :
    (convert "in.mp4" "out.gif" (VideoSource.video (some 30) [⟨10, 10⟩])
        none 10 10 500).success = true
    ∧ (GifFile.mk [⟨10, 10⟩] 100 0 false).durationMs = 1000 / 10 :=
  have h := gif_write_parameters "in.mp4" "out.gif"
    (VideoSource.video (some 30) [⟨10, 10⟩]) none 10 10 500
    ⟨[⟨10, 10⟩], 100, 0, false⟩ (by rw [convert_example_success])
  ⟨h.1, h.2.1⟩

/-- C3 counterexample: at `targetFps = 3` the conversion succeeds and
writes a per-frame duration of 333 ms, but the claimed exact value
`1000 / 3` ms is not 333: the code truncates. -/
theorem gif_duration_counterexample :
    convert "in.mp4" "out.gif" (VideoSource.video (some 30) [⟨10, 10⟩]) none 10 3 500
      = ⟨true, [successLine "in.mp4" "out.gif" 1], [],
          some ⟨[⟨10, 10⟩], 333, 0, false⟩⟩
    ∧ ((333 : ℚ) ≠ 1000 / 3) := by
  constructor
  · simp only [convert, Option.getD, frameSkip_thirty_three, maxFramesOf]
    norm_num [extractLoop, resizeFrame, capReached]
  · norm_num

/-- C5: with a cap `m` (any positive cap, in particular 50 for
`maxDurationSeconds = 5, targetFps = 10`) the frame buffer never exceeds
`m` from any reachable loop state, and as soon as the buffer reaches the
cap the loop consumes no further source frames: its entire result is
unchanged by extending the source. -/
theorem frame_cap_invariant (s w m : Nat) (frames acc : List Frame) (count : Nat) :
    (acc.length < m → (extractLoop s (some m) w frames count acc).1.length ≤ m)
    ∧ (∀ extra, acc.length < m →
        m ≤ (extractLoop s (some m) w frames count acc).1.length →
        extractLoop s (some m) w (frames ++ extra) count acc
          = extractLoop s (some m) w frames count acc)
    ∧ (∀ (inp out : String) (fps : Option ℚ) (se : Option String) (g : GifFile),
        (convert inp out (VideoSource.video fps frames) se 5 10 w).output = some g →
        g.frames.length ≤ 50) := by
  refine ⟨fun h => extractLoop_length_le s w m frames count acc h,
    fun extra h hr => extractLoop_stops_early s w m frames count acc extra h hr,
    fun inp out fps se g hg => ?_⟩
  simp only [convert] at hg
  norm_num at hg
  by_cases he :
      (extractLoop (frameSkip (fps.getD 30) 10) (maxFramesOf 5 10) w frames 0 []).1 = []
  · cases se <;> simp [he] at hg
  · cases se with
    | some msg => simp [he] at hg
    | none =>
      rw [if_neg he] at hg
      have hg' :
          (⟨(extractLoop (frameSkip (fps.getD 30) 10) (maxFramesOf 5 10) w frames 0 []).1,
            100, 0, false⟩ : GifFile) = g := Option.some.inj hg
      subst hg'
      show (extractLoop (frameSkip (fps.getD 30) 10) (maxFramesOf 5 10) w frames 0 []).1.length ≤ 50
      have h50 : maxFramesOf 5 10 = some 50 := by decide
      rw [h50]
      exact extractLoop_length_le _ w 50 frames 0 [] (by decide)

/-- C5 witness: with cap 2 and a five-frame source the buffer holds at
most 2 frames. -/
theorem frame_cap_invariant_witness :
    (extractLoop 3 (some 2) 500
        [⟨1, 1⟩, ⟨2, 1⟩, ⟨3, 1⟩, ⟨4, 1⟩, ⟨5, 1⟩] 0 []).1.length ≤ 2 :=
  (frame_cap_invariant 3 500 2 [⟨1, 1⟩, ⟨2, 1⟩, ⟨3, 1⟩, ⟨4, 1⟩, ⟨5, 1⟩] [] 0).1
    (by decide)

/-- C6: no failure escapes `convert`: whenever the conversion returns
`False` it wrote no output file and printed exactly one `ERROR: <message>`
line to stderr; in particular an empty frame buffer fails with the
"No frames extracted from video" message and no output file. -/
theorem convert_failure_handling (inp out : String) (src : VideoSource)
    (se : Option String) (d t w : Nat) :
    ((convert inp out src se d t w).success = false →
      (convert inp out src se d t w).output = none
      ∧ ∃ m, (convert inp out src se d t w).stderrLines = [errorLine m])
    ∧ (∀ (fps : Option ℚ) (frames : List Frame),
        src = VideoSource.video fps frames → 0 < t →
        (extractLoop (frameSkip (fps.getD 30) t) (maxFramesOf d t) w frames 0 []).1 = [] →
        convert inp out src se d t w
          = ⟨false, [], [errorLine "No frames extracted from video"], none⟩) := by
  constructor
  · intro hf
    cases src with
    | unreadable msg => exact ⟨rfl, msg, rfl⟩
    | video fps frames =>
      by_cases ht : t = 0
      · simp [convert, ht]
      · simp only [convert, ht, if_false] at hf ⊢
        by_cases he :
            ((extractLoop (frameSkip (fps.getD 30) t) (maxFramesOf d t) w frames 0 []).1).isEmpty
        · simp [he]
        · cases se with
          | some msg => simp [he]
          | none => simp [he] at hf
  · intro fps frames hsrc ht hempty
    subst hsrc
    have ht0 : ¬ t = 0 := by omega
    simp [convert, ht0, hempty]

/-- C6 witness: a readable but frameless source fails with the
"No frames extracted from video" error and writes nothing. -/
theorem convert_failure_handling_witness :
    convert "in.mp4" "out.gif" (VideoSource.video (some 30) []) none 10 10 500
      = ⟨false, [], [errorLine "No frames extracted from video"], none⟩ :=
  (convert_failure_handling "in.mp4" "out.gif" (VideoSource.video (some 30) [])
      none 10 10 500).2 (some 30) [] rfl (by decide) rfl

/-- C7: a command-line run exits 0 or 1, and exits 0 exactly when an
output file was written; with fewer than two positional arguments it
prints only the usage text to stdout and exits 1 with a result that is the
same for every environment (no filesystem access); with a missing input
file it prints only `ERROR: Input file not found: <path>` to stderr and
exits 1 without attempting conversion. -/
theorem main_cli_contract (env : Env) (argv : List String) :
    ((mainRun env argv).exitCode = 0 ∨ (mainRun env argv).exitCode = 1)
    ∧ ((mainRun env argv).exitCode = 0 ↔ ∃ g, (mainRun env argv).output = some g)
    ∧ (argv.length < 2 → mainRun env argv = ⟨1, [usageLine], [], none⟩)
    ∧ (∀ (inp out : String) (rest : List String),
        argv = inp :: out :: rest → env.fileExists inp = false →
        mainRun env argv = ⟨1, [], ["ERROR: Input file not found: " ++ inp], none⟩) := by
  cases argv with
  | nil =>
    refine ⟨by simp [mainRun], by simp [mainRun], fun _ => rfl, ?_⟩
    intro inp out rest h
    cases h
  | cons a tl =>
    cases tl with
    | nil =>
      refine ⟨by simp [mainRun], by simp [mainRun], fun _ => rfl, ?_⟩
      intro inp out rest h
      cases h
    | cons b rest0 =>
      refine ⟨?_, ?_, ?_, ?_⟩
      · simp only [mainRun]
        by_cases hex : env.fileExists a
        · simp only [hex, if_true]
          by_cases hs : (convert a b env.source env.saveError
              (argNat env (a :: b :: rest0) 2 10) (argNat env (a :: b :: rest0) 3 10)
              (argNat env (a :: b :: rest0) 4 500)).success
          · simp [hs]
          · simp [hs]
        · simp [hex]
      · simp only [mainRun]
        by_cases hex : env.fileExists a
        · simp only [hex, if_true]
          have hiff := convert_success_iff_output a b env.source env.saveError
            (argNat env (a :: b :: rest0) 2 10) (argNat env (a :: b :: rest0) 3 10)
            (argNat env (a :: b :: rest0) 4 500)
          by_cases hs : (convert a b env.source env.saveError
              (argNat env (a :: b :: rest0) 2 10) (argNat env (a :: b :: rest0) 3 10)
              (argNat env (a :: b :: rest0) 4 500)).success
          · simpa [hs] using hiff.mp hs
          · constructor
            · intro h0
              simp [hs] at h0
            · intro ⟨g, hgo⟩
              exact absurd (hiff.mpr ⟨g, hgo⟩) hs
        · simp [hex]
      · intro h
        exfalso
        rw [List.length_cons, List.length_cons] at h
        omega
      · intro inp out rest hargv hex
        cases hargv
        simp [mainRun, hex]

/-- C7 witness: with one argument the run prints usage and exits 1; with a
missing input file it prints the not-found error and exits 1. -/
theorem main_cli_contract_witness :
    mainRun ⟨fun _ => false, VideoSource.video none [], none, fun _ => 0⟩ ["a.mp4"]
      = ⟨1, [usageLine], [], none⟩
    ∧ mainRun ⟨fun _ => false, VideoSource.video none [], none, fun _ => 0⟩
        ["a.mp4", "b.gif"]
      = ⟨1, [], ["ERROR: Input file not found: " ++ "a.mp4"], none⟩ :=
  ⟨(main_cli_contract ⟨fun _ => false, VideoSource.video none [], none, fun _ => 0⟩
      ["a.mp4"]).2.2.1 (by decide),
   (main_cli_contract ⟨fun _ => false, VideoSource.video none [], none, fun _ => 0⟩
      ["a.mp4", "b.gif"]).2.2.2 "a.mp4" "b.gif" [] rfl rfl⟩

/-- C8: a successful conversion prints exactly one
`SUCCESS: Converted <input> to <output> (<N> frames)` line with the
retained frame count to stdout, returns `True`, and the process exits 0
with the same stdout. -/
theorem success_reporting (inp out : String) (src : VideoSource) (se : Option String)
    (d t w : Nat) :
    ((convert inp out src se d t w).success = true →
      ∃ g, (convert inp out src se d t w).output = some g
        ∧ (convert inp out src se d t w).stdoutLines
            = [successLine inp out g.frames.length])
    ∧ (∀ (env : Env) (rest : List String),
        env.source = src → env.saveError = se →
        env.fileExists inp = true →
        argNat env (inp :: out :: rest) 2 10 = d →
        argNat env (inp :: out :: rest) 3 10 = t →
        argNat env (inp :: out :: rest) 4 500 = w →
        (convert inp out src se d t w).success = true →
        (mainRun env (inp :: out :: rest)).exitCode = 0
        ∧ (mainRun env (inp :: out :: rest)).stdoutLines
            = (convert inp out src se d t w).stdoutLines) := by
  constructor
  · intro hs
    cases src with
    | unreadable msg => simp [convert] at hs
    | video fps frames =>
      by_cases ht : t = 0
      · simp [convert, ht] at hs
      · simp only [convert, ht, if_false] at hs ⊢
        by_cases he :
            ((extractLoop (frameSkip (fps.getD 30) t) (maxFramesOf d t) w frames 0 []).1).isEmpty
        · simp [he] at hs
        · cases se with
          | some msg => simp [he] at hs
          | none =>
            refine ⟨⟨(extractLoop (frameSkip (fps.getD 30) t) (maxFramesOf d t)
                w frames 0 []).1, 1000 / t, 0, false⟩, ?_, ?_⟩
            · simp [he]
            · simp [he]
  · intro env rest hsrc hse hex h2 h3 h4 hs
    simp only [mainRun, h2, h3, h4, hsrc, hse, hex, if_true, hs]
    simp

/-- C8 witness: the concrete successful run exits 0 and prints the single
success line with frame count 1. -/
theorem success_reporting_witness :
    (mainRun ⟨fun _ => true, VideoSource.video (some 30) [⟨10, 10⟩], none, fun _ => 0⟩
        ["in.mp4", "out.gif"]).exitCode = 0
    ∧ (mainRun ⟨fun _ => true, VideoSource.video (some 30) [⟨10, 10⟩], none, fun _ => 0⟩
        ["in.mp4", "out.gif"]).stdoutLines
      = (convert "in.mp4" "out.gif" (VideoSource.video (some 30) [⟨10, 10⟩])
          none 10 10 500).stdoutLines :=
  (success_reporting "in.mp4" "out.gif" (VideoSource.video (some 30) [⟨10, 10⟩])
      none 10 10 500).2
    ⟨fun _ => true, VideoSource.video (some 30) [⟨10, 10⟩], none, fun _ => 0⟩
    [] rfl rfl rfl rfl rfl rfl
    (by rw [convert_example_success])

/-- C9: the run never consults the filesystem about the output path: when
the input and output paths differ, changing whether a file exists at the
output path changes nothing about the run, and a run that exits 0 writes
the output file regardless (an existing file is overwritten, not
protected). -/
theorem output_path_never_checked (env : Env) (b : Bool) (inp out : String)
    (rest : List String) (hne : inp ≠ out) :
    mainRun { env with fileExists := fun p => if p = out then b else env.fileExists p }
        (inp :: out :: rest)
      = mainRun env (inp :: out :: rest)
    ∧ ((mainRun env (inp :: out :: rest)).exitCode = 0 →
        ∃ g, (mainRun env (inp :: out :: rest)).output = some g) := by
  constructor
  · simp only [mainRun, argNat]
    have hfe : (if inp = out then b else env.fileExists inp) = env.fileExists inp := by
      simp [hne]
    rw [hfe]
  · intro h0
    simp only [mainRun] at h0 ⊢
    by_cases hex : env.fileExists inp
    · simp only [hex, if_true] at h0 ⊢
      have hiff := convert_success_iff_output inp out
        env.source env.saveError
        (argNat env (inp :: out :: rest) 2 10) (argNat env (inp :: out :: rest) 3 10)
        (argNat env (inp :: out :: rest) 4 500)
      by_cases hs : (convert inp out
          env.source env.saveError (argNat env (inp :: out :: rest) 2 10)
          (argNat env (inp :: out :: rest) 3 10)
          (argNat env (inp :: out :: rest) 4 500)).success
      · simpa using hiff.mp hs
      · simp [hs] at h0
    · simp [hex] at h0

/-- C9 witness: with distinct input and output paths, flipping the
existence of the output path leaves the run unchanged. -/
theorem output_path_never_checked_witness :
    mainRun { (⟨fun _ => false, VideoSource.video none [], none, fun _ => 0⟩ : Env) with
        fileExists := fun p => if p = "b.gif" then true
          else Env.fileExists ⟨fun _ => false, VideoSource.video none [], none, fun _ => 0⟩ p }
      ["a.mp4", "b.gif"]
      = mainRun ⟨fun _ => false, VideoSource.video none [], none, fun _ => 0⟩
          ["a.mp4", "b.gif"] :=
  (output_path_never_checked ⟨fun _ => false, VideoSource.video none [], none, fun _ => 0⟩
      true "a.mp4" "b.gif" [] (by decide)).1

/-- C10: index 0 passes the stride test for every stride, so the loop's
buffer is empty exactly when the source yielded no frames, its first entry
is always the (resized) first decoded frame, and the "no frames extracted"
failure arises from an empty source only: with any positive `targetFps`
and any duration the conversion of an empty source fails with that
message, while a non-empty source never yields an empty buffer. -/
theorem first_frame_always_kept (s w : Nat) (cap : Option Nat) (frames : List Frame) :
    ((extractLoop s cap w frames 0 []).1 = [] ↔ frames = [])
    ∧ (∀ (f : Frame) (rest : List Frame), frames = f :: rest →
        (extractLoop s cap w frames 0 []).1.head? = some (resizeFrame w f))
    ∧ (∀ (inp out : String) (fps : Option ℚ) (se : Option String) (d t : Nat),
        0 < t → frames = [] →
        convert inp out (VideoSource.video fps frames) se d t w
          = ⟨false, [], [errorLine "No frames extracted from video"], none⟩)
    ∧ (∀ (d t : Nat) (fps : Option ℚ), frames ≠ [] →
        (extractLoop (frameSkip (fps.getD 30) t) (maxFramesOf d t) w frames 0 []).1 ≠ []) := by
  refine ⟨extractLoop_empty_iff s w cap frames, fun f rest hf => ?_, ?_, ?_⟩
  · subst hf
    exact extractLoop_head s w cap f rest
  · intro inp out fps se d t ht hf
    subst hf
    have ht0 : ¬ t = 0 := by omega
    simp [convert, ht0, extractLoop]
  · intro d t fps hf
    rw [ne_eq, extractLoop_empty_iff]
    exact hf

/-- C10 witness: a one-frame source keeps its first frame under a stride
of 7 and a cap of 1, and an empty source fails with the no-frames error
for `maxDuration = 7, targetFps = 10`. -/
theorem first_frame_always_kept_witness :
    (extractLoop 7 (some 1) 500 [⟨20, 10⟩] 0 []).1.head? = some (resizeFrame 500 ⟨20, 10⟩)
    ∧ convert "x.mp4" "y.gif" (VideoSource.video none []) none 7 10 500
      = ⟨false, [], [errorLine "No frames extracted from video"], none⟩ :=
  ⟨(first_frame_always_kept 7 500 (some 1) [⟨20, 10⟩]).2.1 ⟨20, 10⟩ [] rfl,
   (first_frame_always_kept 7 500 (some 1) []).2.2.1 "x.mp4" "y.gif" none none 7 10
     (by decide) rfl⟩

end ConvertToGif
